import Mathlib
namespace Yeelight
/-!
Verification development for the Yeelight device-session and protocol engine
(`src/Yeelight.cpp`, `src/Yeelight.h`, `src/Yeelight_enums.h`,
`src/Yeelight_structs.h`).

The C++ source is shallowly embedded: pure command-building and parsing code
becomes Lean functions over `Nat`/`Int`/`List Char`; the socket layer, the
cJSON library and the FreeRTOS primitives are external collaborators and are
represented by explicit parameters (a device-reply oracle for `send_command`,
an abstract line parser for `cJSON_Parse`, a boolean for a semaphore wait
outcome).  Machine-integer casts are modelled with explicit `% 2^w`.
-/
/-- `ResponseType` from `Yeelight_enums.h`. -/
inductive ResponseType where
  | SUCCESS
  | DEVICE_NOT_FOUND
  | METHOD_NOT_SUPPORTED
  | INVALID_PARAMS
  | ERROR
  | UNEXPECTED_RESPONSE
  | TIMEOUT
  | CONNECTION_FAILED
  | CONNECTION_LOST
  | IN_PROGRESS
deriving DecidableEq, Repr
/-- `effect` from `Yeelight_enums.h`. -/
inductive Effect where
  | EFFECT_SMOOTH
  | EFFECT_SUDDEN
deriving DecidableEq, Repr
/-- `mode` from `Yeelight_enums.h` (numeric values 0..5 in declaration order). -/
inductive PowerMode where
  | MODE_CURRENT
  | MODE_CT
  | MODE_RGB
  | MODE_HSV
  | MODE_COLOR_FLOW
  | MODE_NIGHT_LIGHT
deriving DecidableEq, Repr
/-- The integer value of a `mode` enumerator (C enum, declaration order from 0). -/
def powerModeCode : PowerMode → Nat
  | .MODE_CURRENT => 0
  | .MODE_CT => 1
  | .MODE_RGB => 2
  | .MODE_HSV => 3
  | .MODE_COLOR_FLOW => 4
  | .MODE_NIGHT_LIGHT => 5
/-- `flow_mode` from `Yeelight_enums.h`: `FLOW_COLOR = 1`,
`FLOW_COLOR_TEMPERATURE = 2`, `FLOW_SLEEP = 7`. -/
inductive FlowMode where
  | FLOW_COLOR
  | FLOW_COLOR_TEMPERATURE
  | FLOW_SLEEP
deriving DecidableEq, Repr
/-- The integer value of a `flow_mode` enumerator. -/
def flowModeCode : FlowMode → Nat
  | .FLOW_COLOR => 1
  | .FLOW_COLOR_TEMPERATURE => 2
  | .FLOW_SLEEP => 7
/-- `flow_action` from `Yeelight_enums.h`: `FLOW_RECOVER = 0`, `FLOW_STAY = 1`,
`FLOW_OFF = 2`. -/
inductive FlowAction where
  | FLOW_RECOVER
  | FLOW_STAY
  | FLOW_OFF
deriving DecidableEq, Repr
/-- The integer value of a `flow_action` enumerator. -/
def flowActionCode : FlowAction → Nat
  | .FLOW_RECOVER => 0
  | .FLOW_STAY => 1
  | .FLOW_OFF => 2
/-- `LightType` from `Yeelight_enums.h`. -/
inductive LightType where
  | MAIN_LIGHT
  | BACKGROUND_LIGHT
  | BOTH
  | AUTO
deriving DecidableEq, Repr
/-- `Color_mode` from `Yeelight_enums.h`. -/
inductive ColorMode where
  | COLOR_MODE_UNKNOWN
  | COLOR_MODE_RGB
  | COLOR_MODE_COLOR_TEMPERATURE
  | COLOR_MODE_HSV
deriving DecidableEq, Repr
/-- `flow_expression` from `Yeelight_structs.h`: `uint32_t duration`,
`flow_mode mode`, `uint32_t value`, `uint8_t brightness`.  Field contents are
`Nat`s; the machine-width bounds appear as the predicate `FlowExpr.wf`. -/
structure FlowExpr where
  duration : Nat
  mode : FlowMode
  value : Nat
  brightness : Nat
deriving DecidableEq, Repr
/-- The machine-integer bounds of `flow_expression`'s fields
(`uint32_t duration`, `uint32_t value`, `uint8_t brightness`). -/
def FlowExpr.wf (e : FlowExpr) : Prop :=
  e.duration < 2 ^ 32 ∧ e.value < 2 ^ 32 ∧ e.brightness < 2 ^ 8
instance (e : FlowExpr) : Decidable e.wf := by
  unfold FlowExpr.wf; infer_instance
/-! ## Decimal numerals (`std::to_string` on unsigned integers / `atoi`) -/
/-- The character of a single decimal digit (`'0' + d`). -/
def digitToChar (d : Nat) : Char := Char.ofNat (48 + d)
/-- Decimal digits of `n`, least significant first; `fuel` bounds recursion
and any `fuel > n` is enough. -/
def digitsRevFuel : Nat → Nat → List Nat
  | 0, _ => []
  | fuel + 1, n => if n < 10 then [n] else n % 10 :: digitsRevFuel fuel (n / 10)
/-- The decimal numeral of `n`, as `std::to_string` prints an unsigned value. -/
def natToChars (n : Nat) : List Char :=
  ((digitsRevFuel (n + 1) n).reverse).map digitToChar
/-- The numeric value of a digit character, if it is one. -/
def charDigitVal (c : Char) : Option Nat :=
  if 48 ≤ c.toNat ∧ c.toNat ≤ 57 then some (c.toNat - 48) else none
/-- Whether a character is a decimal digit. -/
def isDigitChar (c : Char) : Bool := 48 ≤ c.toNat ∧ c.toNat ≤ 57
/-- Parse a non-empty all-digit character list as a decimal `Nat`,
most significant digit first. -/
def parseNatChars (cs : List Char) : Option Nat :=
  if cs = [] then none
  else if cs.all isDigitChar then
    some (cs.foldl (fun a c => a * 10 + (c.toNat - 48)) 0)
  else none
/-- Value of a least-significant-first digit list. -/
def valRev : List Nat → Nat
  | [] => 0
  | d :: ds => d + 10 * valRev ds
/-- `atoi` on a character list: skip leading spaces, optional sign, then the
longest digit prefix (value 0 when there is none). -/
def atoiChars (cs : List Char) : Int :=
  let cs := cs.dropWhile (fun c => c = ' ' ∨ c = '\t' ∨ c = '\n' ∨ c = '\r')
  match cs with
  | [] => 0
  | c :: rest =>
    if c = '-' then
      -(((rest.takeWhile isDigitChar).foldl (fun a d => a * 10 + (d.toNat - 48)) 0 : Nat) : Int)
    else if c = '+' then
      (((rest.takeWhile isDigitChar).foldl (fun a d => a * 10 + (d.toNat - 48)) 0 : Nat) : Int)
    else
      ((((c :: rest).takeWhile isDigitChar).foldl (fun a d => a * 10 + (d.toNat - 48)) 0 : Nat) : Int)
/-- `atoi` on a Lean string. -/
def atoiStr (s : String) : Int := atoiChars s.data
/-! ## Comma joining and splitting (the flow expression wire format) -/
/-- Join character-list tokens with `','`, no trailing separator. -/
def joinComma : List (List Char) → List Char
  | [] => []
  | [t] => t
  | t :: ts => t ++ ',' :: joinComma ts
/-- Prepend a character to the first token of a token list. -/
def consTok (c : Char) : List (List Char) → List (List Char)
  | [] => [[c]]
  | t :: ts => (c :: t) :: ts
/-- Split a character list at every `','`. -/
def splitComma : List Char → List (List Char)
  | [] => [[]]
  | c :: rest => if c = ',' then [] :: splitComma rest else consTok c (splitComma rest)
/-! ## Flow codec

`Yeelight::start_cf_command` builds the `start_cf` parameter array: the repeat
count, the terminal-action code, and one string built by appending
`duration ++ "," ++ mode ++ "," ++ value ++ "," ++ brightness ++ ","` per step
and then `pop_back()`-ing the final comma. -/
/-- One JSON parameter of a command, as produced by the cJSON calls in the
command builders. -/
inductive Param where
  | num (n : Nat)
  | str (s : String)
deriving DecidableEq, Repr
/-- The four comma-separated numerals of one `flow_expression`, as appended by
the loop body of `start_cf_command`. -/
def stepChars (e : FlowExpr) : List Char :=
  natToChars e.duration ++ ',' ::
    (natToChars (flowModeCode e.mode) ++ ',' ::
      (natToChars e.value ++ ',' :: natToChars e.brightness))
/-- The flow-expression string of `start_cf_command`: per-step fields each
followed by `','`, with the final `','` removed by `pop_back()`. -/
def flowExpressionChars (steps : List FlowExpr) : List Char :=
  (steps.flatMap (fun e => stepChars e ++ [','])).dropLast
/-- The `params` array passed by `start_cf_command` to
`send_command("start_cf", params)`. -/
def start_cf_params (count : Nat) (action : FlowAction) (flow : List FlowExpr) :
    List Param :=
  [.num count, .num (flowActionCode action), .str ⟨flowExpressionChars flow⟩]
/-- The four wire tokens of one step. -/
def stepToks (e : FlowExpr) : List (List Char) :=
  [natToChars e.duration, natToChars (flowModeCode e.mode),
   natToChars e.value, natToChars e.brightness]
/-- Modelled from the spec: the repository contains no flow `decode`; §4.6
describes it as the inverse of `encode`, "used only for testing round-trip
fidelity".  `decodeFlowSteps` reads groups of four comma-separated tokens as
duration, step-kind code, value and brightness, rejecting anything that is not
a numeral, a known step-kind code (1, 2 or 7), or representable in the
`flow_expression` field widths. -/
def flowModeOfCode : Nat → Option FlowMode
  | 1 => some .FLOW_COLOR
  | 2 => some .FLOW_COLOR_TEMPERATURE
  | 7 => some .FLOW_SLEEP
  | _ => none
/-- Modelled from the spec: decode four tokens into one `flow_expression`. -/
def decodeStep (t1 t2 t3 t4 : List Char) : Option FlowExpr :=
  match parseNatChars t1, parseNatChars t2, parseNatChars t3, parseNatChars t4 with
  | some d, some k, some v, some b =>
    match flowModeOfCode k with
    | some m =>
      if d < 2 ^ 32 ∧ v < 2 ^ 32 ∧ b < 2 ^ 8 then some ⟨d, m, v, b⟩ else none
    | none => none
  | _, _, _, _ => none
/-- Modelled from the spec: decode a token list four tokens at a time. -/
def decodeFlowToks : List (List Char) → Option (List FlowExpr)
  | [] => some []
  | t1 :: t2 :: t3 :: t4 :: rest =>
    match decodeStep t1 t2 t3 t4, decodeFlowToks rest with
    | some e, some es => some (e :: es)
    | _, _ => none
  | _ => none
/-- Modelled from the spec: `decode` of the flow wire string (the inverse of
the `start_cf_command` string encoding). -/
def decodeFlowChars (cs : List Char) : Option (List FlowExpr) :=
  decodeFlowToks (splitComma cs)
/-- A well-formed flow wire string: the encoding of some non-empty step list
whose fields fit the `flow_expression` machine widths. -/
def WellFormedFlowChars (cs : List Char) : Prop :=
  ∃ steps : List FlowExpr,
    steps ≠ [] ∧ (∀ e ∈ steps, e.wf) ∧ cs = flowExpressionChars steps
/-! ## Capability set and command dispatch

`SupportedMethods` from `Yeelight_structs.h`.  `send_command` writes one JSON
frame to the active socket and waits for the correlated outcome; here the
socket and the device are an external collaborator, represented by an oracle
`reply : Cmd → ResponseType` giving the outcome `send_command` returns for a
frame.  Each embedded operation returns the `ResponseType` of the C++ function
together with the list of frames it handed to `send_command`, in order; a
rejected call hands over no frame, which models "zero network writes". -/
structure SupportedMethods where
  get_prop : Bool
  set_ct_abx : Bool
  set_rgb : Bool
  set_hsv : Bool
  set_bright : Bool
  set_power : Bool
  toggle : Bool
  set_default : Bool
  start_cf : Bool
  stop_cf : Bool
  set_scene : Bool
  cron_add : Bool
  cron_get : Bool
  cron_del : Bool
  set_adjust : Bool
  set_music : Bool
  set_name : Bool
  bg_set_rgb : Bool
  bg_set_hsv : Bool
  bg_set_ct_abx : Bool
  bg_start_cf : Bool
  bg_stop_cf : Bool
  bg_set_scene : Bool
  bg_set_default : Bool
  bg_set_power : Bool
  bg_set_bright : Bool
  bg_set_adjust : Bool
  bg_toggle : Bool
  dev_toggle : Bool
  adjust_bright : Bool
  adjust_ct : Bool
  adjust_color : Bool
  bg_adjust_bright : Bool
  bg_adjust_ct : Bool
  bg_adjust_color : Bool
deriving DecidableEq, Repr
/-- The capability set with every bit false (a zero-initialized
`SupportedMethods`). -/
def SupportedMethods.none : SupportedMethods :=
  ⟨false, false, false, false, false, false, false, false, false, false,
   false, false, false, false, false, false, false, false, false, false,
   false, false, false, false, false, false, false, false, false, false,
   false, false, false, false, false⟩
/-- One command frame: method name plus JSON parameter array. -/
structure Cmd where
  method : String
  params : List Param
deriving DecidableEq, Repr
/-- Outcome of an operation: the returned `ResponseType` and the frames handed
to `send_command`, in order. -/
abbrev Outcome := ResponseType × List Cmd
/-- `send_command(method, params)`: hand one frame to the socket layer and
return the outcome the oracle assigns to it. -/
def send_command (reply : Cmd → ResponseType) (method : String) (params : List Param) :
    Outcome :=
  (reply ⟨method, params⟩, [⟨method, params⟩])
/-- Run a second command only when the first returned `SUCCESS`, accumulating
sent frames — the `if (response != SUCCESS) return response;` pattern of every
BOTH/AUTO dual-channel path. -/
def andThen (first : Outcome) (second : Outcome) : Outcome :=
  if first.1 ≠ ResponseType.SUCCESS then first
  else (second.1, first.2 ++ second.2)
/-- The `"smooth"`/`"sudden"` string of an `effect`. -/
def effectStr : Effect → String
  | .EFFECT_SMOOTH => "smooth"
  | .EFFECT_SUDDEN => "sudden"
/-! ### Command builders (`*_command` private members of `Yeelight`) -/
/-- `Yeelight::set_power_command`: capability bit `set_power`, duration check,
then `set_power` with `["on"|"off", "smooth"|"sudden", duration]` plus the
mode code when `mode != MODE_CURRENT`. -/
def set_power_command (caps : SupportedMethods) (reply : Cmd → ResponseType)
    (power : Bool) (e : Effect) (duration : Nat) (m : PowerMode) : Outcome :=
  if ¬caps.set_power then (.METHOD_NOT_SUPPORTED, [])
  else if duration < 30 then (.INVALID_PARAMS, [])
  else
    send_command reply "set_power"
      ([.str (if power then "on" else "off"), .str (effectStr e), .num duration] ++
        (if m ≠ PowerMode.MODE_CURRENT then [.num (powerModeCode m)] else []))
/-- `Yeelight::bg_set_power_command`. -/
def bg_set_power_command (caps : SupportedMethods) (reply : Cmd → ResponseType)
    (power : Bool) (e : Effect) (duration : Nat) (m : PowerMode) : Outcome :=
  if ¬caps.bg_set_power then (.METHOD_NOT_SUPPORTED, [])
  else if duration < 30 then (.INVALID_PARAMS, [])
  else
    send_command reply "bg_set_power"
      ([.str (if power then "on" else "off"), .str (effectStr e), .num duration] ++
        (if m ≠ PowerMode.MODE_CURRENT then [.num (powerModeCode m)] else []))
/-- `Yeelight::set_ct_abx_command`. -/
def set_ct_abx_command (caps : SupportedMethods) (reply : Cmd → ResponseType)
    (ct_value : Nat) (e : Effect) (duration : Nat) : Outcome :=
  if ¬caps.set_ct_abx then (.METHOD_NOT_SUPPORTED, [])
  else send_command reply "set_ct_abx" [.num ct_value, .str (effectStr e), .num duration]
/-- `Yeelight::bg_set_ct_abx_command`. -/
def bg_set_ct_abx_command (caps : SupportedMethods) (reply : Cmd → ResponseType)
    (ct_value : Nat) (e : Effect) (duration : Nat) : Outcome :=
  if ¬caps.bg_set_ct_abx then (.METHOD_NOT_SUPPORTED, [])
  else send_command reply "bg_set_ct_abx" [.num ct_value, .str (effectStr e), .num duration]
/-- `Yeelight::set_bright_command` (no checks of its own). -/
def set_bright_command (reply : Cmd → ResponseType)
    (bright : Nat) (e : Effect) (duration : Nat) : Outcome :=
  send_command reply "set_bright" [.num bright, .str (effectStr e), .num duration]
/-- `Yeelight::bg_set_bright_command`. -/
def bg_set_bright_command (reply : Cmd → ResponseType)
    (bright : Nat) (e : Effect) (duration : Nat) : Outcome :=
  send_command reply "bg_set_bright" [.num bright, .str (effectStr e), .num duration]
/-- `Yeelight::set_hsv_command`. -/
def set_hsv_command (reply : Cmd → ResponseType)
    (hue : Nat) (sat : Nat) (e : Effect) (duration : Nat) : Outcome :=
  send_command reply "set_hsv" [.num hue, .num sat, .str (effectStr e), .num duration]
/-- `Yeelight::bg_set_hsv_command`. -/
def bg_set_hsv_command (reply : Cmd → ResponseType)
    (hue : Nat) (sat : Nat) (e : Effect) (duration : Nat) : Outcome :=
  send_command reply "bg_set_hsv" [.num hue, .num sat, .str (effectStr e), .num duration]
/-- `Yeelight::set_scene_hsv_command`: takes a `uint8_t` hue, so the caller's
`static_cast<uint8_t>(hue)` appears at the call sites. -/
def set_scene_hsv_command (reply : Cmd → ResponseType)
    (hue : Nat) (sat : Nat) (bright : Nat) : Outcome :=
  send_command reply "set_scene" [.str "hsv", .num hue, .num sat, .num bright]
/-- `Yeelight::bg_set_scene_hsv_command`. -/
def bg_set_scene_hsv_command (reply : Cmd → ResponseType)
    (hue : Nat) (sat : Nat) (bright : Nat) : Outcome :=
  send_command reply "bg_set_scene" [.str "hsv", .num hue, .num sat, .num bright]
/-- `Yeelight::set_scene_ct_command`. -/
def set_scene_ct_command (reply : Cmd → ResponseType) (ct : Nat) (bright : Nat) : Outcome :=
  send_command reply "set_scene" [.str "ct", .num ct, .num bright]
/-- `Yeelight::bg_set_scene_ct_command`. -/
def bg_set_scene_ct_command (reply : Cmd → ResponseType) (ct : Nat) (bright : Nat) : Outcome :=
  send_command reply "bg_set_scene" [.str "ct", .num ct, .num bright]
/-- `Yeelight::set_music_command(power, host, port)`: params are the power
flag as a number, the dotted host string, and the port. -/
def set_music_command (reply : Cmd → ResponseType)
    (power : Bool) (host : Nat × Nat × Nat × Nat) (port : Nat) : Outcome :=
  send_command reply "set_music"
    [.num (if power then 1 else 0),
     .str ⟨natToChars host.1 ++ '.' :: (natToChars host.2.1 ++ '.' ::
       (natToChars host.2.2.1 ++ '.' :: natToChars host.2.2.2))⟩,
     .num port]
/-! ### Public setters (`Yeelight.cpp`) -/
/-- `Yeelight::set_power(power, effect, duration, mode, lightType)`:
capability gate on `set_power`/`bg_set_power` first, then the
`duration < 30` check, then per-`LightType` dispatch. -/
def set_power (caps : SupportedMethods) (reply : Cmd → ResponseType)
    (power : Bool) (e : Effect) (duration : Nat) (m : PowerMode)
    (lightType : LightType) : Outcome :=
  if ¬caps.set_power ∧ ¬caps.bg_set_power then (.METHOD_NOT_SUPPORTED, [])
  else if duration < 30 then (.INVALID_PARAMS, [])
  else if lightType = .AUTO then
    if caps.set_power ∧ caps.bg_set_power then
      andThen (set_power_command caps reply power e duration m)
        (bg_set_power_command caps reply power e duration m)
    else if caps.set_power then set_power_command caps reply power e duration m
    else bg_set_power_command caps reply power e duration m
  else if lightType = .MAIN_LIGHT then set_power_command caps reply power e duration m
  else if lightType = .BACKGROUND_LIGHT then bg_set_power_command caps reply power e duration m
  else if lightType = .BOTH then
    andThen (set_power_command caps reply power e duration m)
      (bg_set_power_command caps reply power e duration m)
  else (.ERROR, [])
/-- `Yeelight::set_brightness(bright, effect, duration, lightType)`:
range checks on brightness and duration come before the capability gate. -/
def set_brightness (caps : SupportedMethods) (reply : Cmd → ResponseType)
    (bright : Nat) (e : Effect) (duration : Nat) (lightType : LightType) : Outcome :=
  if bright < 1 ∨ bright > 100 then (.INVALID_PARAMS, [])
  else if duration < 30 then (.INVALID_PARAMS, [])
  else if ¬caps.set_bright ∧ ¬caps.bg_set_bright then (.METHOD_NOT_SUPPORTED, [])
  else if lightType = .AUTO then
    if caps.set_bright ∧ caps.bg_set_bright then
      andThen (set_bright_command reply bright e duration)
        (bg_set_bright_command reply bright e duration)
    else if caps.set_bright then set_bright_command reply bright e duration
    else bg_set_bright_command reply bright e duration
  else if lightType = .MAIN_LIGHT then set_bright_command reply bright e duration
  else if lightType = .BACKGROUND_LIGHT then bg_set_bright_command reply bright e duration
  else if lightType = .BOTH then
    andThen (set_bright_command reply bright e duration)
      (bg_set_bright_command reply bright e duration)
  else (.ERROR, [])
/-- `Yeelight::set_hsv_color(hue, sat, effect, duration, lightType)`:
range checks on hue, saturation and duration before the capability gate. -/
def set_hsv_color (caps : SupportedMethods) (reply : Cmd → ResponseType)
    (hue : Nat) (sat : Nat) (e : Effect) (duration : Nat) (lightType : LightType) : Outcome :=
  if hue > 359 then (.INVALID_PARAMS, [])
  else if sat > 100 then (.INVALID_PARAMS, [])
  else if duration < 30 then (.INVALID_PARAMS, [])
  else if ¬caps.set_hsv ∧ ¬caps.bg_set_hsv then (.METHOD_NOT_SUPPORTED, [])
  else if lightType = .AUTO then
    if caps.set_hsv ∧ caps.bg_set_hsv then
      andThen (set_hsv_command reply hue sat e duration)
        (bg_set_hsv_command reply hue sat e duration)
    else if caps.set_hsv then set_hsv_command reply hue sat e duration
    else bg_set_hsv_command reply hue sat e duration
  else if lightType = .MAIN_LIGHT then set_hsv_command reply hue sat e duration
  else if lightType = .BACKGROUND_LIGHT then bg_set_hsv_command reply hue sat e duration
  else if lightType = .BOTH then
    andThen (set_hsv_command reply hue sat e duration)
      (bg_set_hsv_command reply hue sat e duration)
  else (.ERROR, [])
/-- `Yeelight::set_color_temp(ct_value, effect, duration, lightType)`:
range check on `ct_value` before the capability gate. -/
def set_color_temp (caps : SupportedMethods) (reply : Cmd → ResponseType)
    (ct_value : Nat) (e : Effect) (duration : Nat) (lightType : LightType) : Outcome :=
  if ct_value < 1700 ∨ ct_value > 6500 then (.INVALID_PARAMS, [])
  else if ¬caps.set_ct_abx ∧ ¬caps.bg_set_ct_abx then (.METHOD_NOT_SUPPORTED, [])
  else if lightType = .AUTO then
    if caps.set_ct_abx ∧ caps.bg_set_ct_abx then
      andThen (set_ct_abx_command caps reply ct_value e duration)
        (bg_set_ct_abx_command caps reply ct_value e duration)
    else if caps.set_ct_abx then set_ct_abx_command caps reply ct_value e duration
    else bg_set_ct_abx_command caps reply ct_value e duration
  else if lightType = .MAIN_LIGHT then set_ct_abx_command caps reply ct_value e duration
  else if lightType = .BACKGROUND_LIGHT then bg_set_ct_abx_command caps reply ct_value e duration
  else if lightType = .BOTH then
    andThen (set_ct_abx_command caps reply ct_value e duration)
      (bg_set_ct_abx_command caps reply ct_value e duration)
  else (.ERROR, [])
/-- `Yeelight::set_hsv_color(hue, sat, bright, lightType)` — the scene-based
overload.  Every dispatch passes `static_cast<uint8_t>(hue)`, i.e.
`hue % 256`, to `set_scene_hsv_command` / `bg_set_scene_hsv_command`. -/
def set_hsv_color_bright (caps : SupportedMethods) (reply : Cmd → ResponseType)
    (hue : Nat) (sat : Nat) (bright : Nat) (lightType : LightType) : Outcome :=
  if bright < 1 ∨ bright > 100 then (.INVALID_PARAMS, [])
  else if hue > 359 then (.INVALID_PARAMS, [])
  else if sat > 100 then (.INVALID_PARAMS, [])
  else if ¬caps.set_scene ∧ ¬caps.bg_set_scene then (.METHOD_NOT_SUPPORTED, [])
  else if lightType = .AUTO then
    if caps.set_scene ∧ caps.bg_set_scene then
      andThen (set_scene_hsv_command reply (hue % 256) sat bright)
        (bg_set_scene_hsv_command reply (hue % 256) sat bright)
    else if caps.set_scene then set_scene_hsv_command reply (hue % 256) sat bright
    else bg_set_scene_hsv_command reply (hue % 256) sat bright
  else if lightType = .MAIN_LIGHT then set_scene_hsv_command reply (hue % 256) sat bright
  else if lightType = .BACKGROUND_LIGHT then bg_set_scene_hsv_command reply (hue % 256) sat bright
  else if lightType = .BOTH then
    andThen (set_scene_hsv_command reply (hue % 256) sat bright)
      (bg_set_scene_hsv_command reply (hue % 256) sat bright)
  else (.ERROR, [])
/-- `Yeelight::set_scene_hsv(hue, sat, bright, lightType)` — identical checks
and the same `static_cast<uint8_t>(hue)` truncation at every dispatch. -/
def set_scene_hsv (caps : SupportedMethods) (reply : Cmd → ResponseType)
    (hue : Nat) (sat : Nat) (bright : Nat) (lightType : LightType) : Outcome :=
  if bright < 1 ∨ bright > 100 then (.INVALID_PARAMS, [])
  else if hue > 359 then (.INVALID_PARAMS, [])
  else if sat > 100 then (.INVALID_PARAMS, [])
  else if ¬caps.set_scene ∧ ¬caps.bg_set_scene then (.METHOD_NOT_SUPPORTED, [])
  else if lightType = .AUTO then
    if caps.set_scene ∧ caps.bg_set_scene then
      andThen (set_scene_hsv_command reply (hue % 256) sat bright)
        (bg_set_scene_hsv_command reply (hue % 256) sat bright)
    else if caps.set_scene then set_scene_hsv_command reply (hue % 256) sat bright
    else bg_set_scene_hsv_command reply (hue % 256) sat bright
  else if lightType = .MAIN_LIGHT then set_scene_hsv_command reply (hue % 256) sat bright
  else if lightType = .BACKGROUND_LIGHT then bg_set_scene_hsv_command reply (hue % 256) sat bright
  else if lightType = .BOTH then
    andThen (set_scene_hsv_command reply (hue % 256) sat bright)
      (bg_set_scene_hsv_command reply (hue % 256) sat bright)
  else (.ERROR, [])
/-! ## Connection manager (`Yeelight::connect`) -/
/-- `Yeelight::connect()`.  The socket layer is external: `allocOk` models the
`new AsyncClient()` allocation succeeding and `attemptOk` the boolean result of
the single `client->connect(devIP, port)` call.  The second component counts
how many times `client->connect` runs. -/
def connect (connecting : Bool) (allocOk : Bool) (attemptOk : Bool) :
    ResponseType × Nat :=
  if connecting then (.IN_PROGRESS, 0)
  else if ¬allocOk then (.ERROR, 0)
  else if ¬attemptOk then (.CONNECTION_FAILED, 1)
  else (.SUCCESS, 1)
/-- The `while (!refreshedMethods && current_retries < max_retry)` loop of
`Yeelight::connect(ip, port)` and of the constructors: `refreshOk i` tells
whether the i-th `refreshSupportedMethods()` call sets `refreshedMethods`.
Returns (refreshed, number of refresh calls made). -/
def refreshLoop (refreshOk : Nat → Bool) : Nat → Nat → Bool × Nat
  | 0, tries => (false, tries)
  | budget + 1, tries =>
    if refreshOk tries then (true, tries + 1)
    else refreshLoop refreshOk budget (tries + 1)
/-- `Yeelight::connect(ip, port)`: run the refresh loop (`max_retry` bound),
then delegate to `connect()`; its `ResponseType` comes solely from that single
`connect()` call. -/
def connect_ip_port (max_retry : Nat) (refreshOk : Nat → Bool)
    (connecting allocOk attemptOk : Bool) : ResponseType × Nat :=
  let _refreshed := refreshLoop refreshOk max_retry 0
  connect connecting allocOk attemptOk
/-- `max_retry` initialized by the default constructor `Yeelight()`. -/
def defaultMaxRetry : Nat := 5
/-- `max_retry` initialized by the connecting constructors. -/
def connectedMaxRetry : Nat := 3
/-! ## Direct channel (`Yeelight::enable_music_mode`) -/
/-- `Yeelight::enable_music_mode()`.  After the capability gate it ensures a
primary connection, creates the music-mode acceptor and records the local
host/port (all socket-layer effects that write no command frame), then takes
`music_sem` with a 1000 ms bound — `semSignalled` says whether the single-slot
rendezvous is signalled within that bound — and only on success calls
`set_music_command(true, music_host, 55443)`. -/
def enable_music_mode (caps : SupportedMethods) (reply : Cmd → ResponseType)
    (localIP : Nat × Nat × Nat × Nat) (semSignalled : Bool) : Outcome :=
  if ¬caps.set_music then (.METHOD_NOT_SUPPORTED, [])
  else if ¬semSignalled then (.CONNECTION_FAILED, [])
  else set_music_command reply true localIP 55443
/-! ## Global registry (`Yeelight::devices`) -/
/-- The process-wide `devices` map from packed IPv4 to the owning session;
sessions are identified by abstract ids (the C++ `this` pointers). -/
abbrev Registry := Nat → Option Nat
/-- The registry block of `Yeelight::~Yeelight()`: erase the entry for `ip32`
only when it exists and still points at the session being destroyed. -/
def destructorRegistry (m : Registry) (ip32 sid : Nat) : Registry :=
  match m ip32 with
  | some owner => if owner = sid then (fun k => if k = ip32 then none else m k) else m
  | none => m
/-- `Yeelight::safeInsertDevice(ip32)`: erase a different session's stale
entry, then insert this session. -/
def safeInsertDevice (m : Registry) (ip32 sid : Nat) : Registry :=
  match m ip32 with
  | some owner =>
    if owner ≠ sid then
      fun k => if k = ip32 then some sid else (fun j => if j = ip32 then none else m j) k
    else fun k => if k = ip32 then some sid else m k
  | none => fun k => if k = ip32 then some sid else m k
/-! ## Frame reader (`Yeelight::onData`)

cJSON is an external collaborator; a parsed JSON value is modelled by `CJson`
and `cJSON_Parse` by an abstract parameter `parse : List Char → Option CJson`
(`none` models a parse failure).  JSON numbers in this protocol are integers,
so `CJson.num` carries an `Int`; machine-integer casts are explicit. -/
inductive CJson where
  | null
  | boolean (b : Bool)
  | num (n : Int)
  | str (s : String)
  | arr (items : List CJson)
  | obj (fields : List (String × CJson))
/-- First field with the given key, in insertion order (`cJSON_GetObjectItem`
on a non-object returns NULL). -/
def getMember : CJson → String → Option CJson
  | .obj fields, key => lookupField fields key
  | _, _ => none
where lookupField : List (String × CJson) → String → Option CJson
  | [], _ => none
  | (k, v) :: rest, key => if k = key then some v else lookupField rest key
/-- `->valueint` of a parsed item: the number for numbers, 1/0 for booleans,
0 otherwise. -/
def cjValueInt : CJson → Int
  | .num n => n
  | .boolean b => if b then 1 else 0
  | _ => 0
/-- `->valuestring` when the item is a string. -/
def cjValueString : CJson → Option String
  | .str s => some s
  | _ => none
/-- `cJSON_IsArray`. -/
def cjIsArray : CJson → Bool
  | .arr _ => true
  | _ => false
/-- The elements of an array item (`cJSON_GetArrayItem` indexes into these). -/
def cjArrItems : CJson → List CJson
  | .arr items => items
  | _ => []
/-- `static_cast<uint8_t>` of an `int` value. -/
def u8Int (i : Int) : Nat := (i % 256).toNat
/-- `static_cast<uint16_t>` of an `int` value. -/
def u16Int (i : Int) : Nat := (i % 65536).toNat
/-- `static_cast<uint32_t>` of an `int` value. -/
def u32Int (i : Int) : Nat := (i % 4294967296).toNat
/-- The `switch`/if-chain mapping a numeric color-mode code to `Color_mode`. -/
def colorModeOfInt (i : Int) : ColorMode :=
  if i = 1 then .COLOR_MODE_RGB
  else if i = 2 then .COLOR_MODE_COLOR_TEMPERATURE
  else if i = 3 then .COLOR_MODE_HSV
  else .COLOR_MODE_UNKNOWN
/-- `YeelightProperties` from `Yeelight_structs.h` (the Property Store). -/
structure Props where
  power : Bool
  bright : Nat
  ct : Nat
  rgb : Nat
  hue : Nat
  sat : Nat
  color_mode : ColorMode
  flowing : Bool
  delayoff : Nat
  music_on : Bool
  name : String
  bg_power : Bool
  bg_flowing : Bool
  bg_ct : Nat
  bg_color_mode : ColorMode
  bg_bright : Nat
  bg_rgb : Nat
  bg_hue : Nat
  bg_sat : Nat
  nl_br : Nat
  active_mode : Bool
deriving DecidableEq, Repr
/-- The string value of a named field of a notification's `params` object,
when present and a string — the `item && cJSON_IsString(item)` guard of each
notification block. -/
def getStrField (fields : List (String × CJson)) (key : String) : Option String :=
  match getMember.lookupField fields key with
  | some (.str s) => some s
  | _ => none
/-- Notification block updating `power` (`params.power`, string only). -/
def nuPower (fields : List (String × CJson)) (p : Props) : Props :=
  { p with power := match getStrField fields "power" with
    | some s => s = "on" | none => p.power }
/-- Notification block updating `bright`. -/
def nuBright (fields : List (String × CJson)) (p : Props) : Props :=
  { p with bright := match getStrField fields "bright" with
    | some s => u8Int (atoiStr s) | none => p.bright }
/-- Notification block updating `ct`. -/
def nuCt (fields : List (String × CJson)) (p : Props) : Props :=
  { p with ct := match getStrField fields "ct" with
    | some s => u16Int (atoiStr s) | none => p.ct }
/-- Notification block updating `rgb`. -/
def nuRgb (fields : List (String × CJson)) (p : Props) : Props :=
  { p with rgb := match getStrField fields "rgb" with
    | some s => u32Int (atoiStr s) | none => p.rgb }
/-- Notification block updating `hue`. -/
def nuHue (fields : List (String × CJson)) (p : Props) : Props :=
  { p with hue := match getStrField fields "hue" with
    | some s => u16Int (atoiStr s) | none => p.hue }
/-- Notification block updating `sat`. -/
def nuSat (fields : List (String × CJson)) (p : Props) : Props :=
  { p with sat := match getStrField fields "sat" with
    | some s => u8Int (atoiStr s) | none => p.sat }
/-- Notification block updating `color_mode`. -/
def nuColorMode (fields : List (String × CJson)) (p : Props) : Props :=
  { p with color_mode := match getStrField fields "color_mode" with
    | some s => colorModeOfInt (atoiStr s) | none => p.color_mode }
/-- Notification block updating `flowing`. -/
def nuFlowing (fields : List (String × CJson)) (p : Props) : Props :=
  { p with flowing := match getStrField fields "flowing" with
    | some s => atoiStr s = 1 | none => p.flowing }
/-- Notification block updating `delayoff`. -/
def nuDelayoff (fields : List (String × CJson)) (p : Props) : Props :=
  { p with delayoff := match getStrField fields "delayoff" with
    | some s => u8Int (atoiStr s) | none => p.delayoff }
/-- Notification block updating `music_on`. -/
def nuMusicOn (fields : List (String × CJson)) (p : Props) : Props :=
  { p with music_on := match getStrField fields "music_on" with
    | some s => atoiStr s = 1 | none => p.music_on }
/-- Notification block updating `name`. -/
def nuName (fields : List (String × CJson)) (p : Props) : Props :=
  { p with name := match getStrField fields "name" with
    | some s => s | none => p.name }
/-- Notification block updating `bg_power`. -/
def nuBgPower (fields : List (String × CJson)) (p : Props) : Props :=
  { p with bg_power := match getStrField fields "bg_power" with
    | some s => s = "on" | none => p.bg_power }
/-- Notification block updating `bg_flowing`. -/
def nuBgFlowing (fields : List (String × CJson)) (p : Props) : Props :=
  { p with bg_flowing := match getStrField fields "bg_flowing" with
    | some s => atoiStr s = 1 | none => p.bg_flowing }
/-- Notification block updating `bg_ct`. -/
def nuBgCt (fields : List (String × CJson)) (p : Props) : Props :=
  { p with bg_ct := match getStrField fields "bg_ct" with
    | some s => u16Int (atoiStr s) | none => p.bg_ct }
/-- Notification block updating `bg_color_mode` (key `bg_lmode`). -/
def nuBgColorMode (fields : List (String × CJson)) (p : Props) : Props :=
  { p with bg_color_mode := match getStrField fields "bg_lmode" with
    | some s => colorModeOfInt (atoiStr s) | none => p.bg_color_mode }
/-- Notification block updating `bg_bright`. -/
def nuBgBright (fields : List (String × CJson)) (p : Props) : Props :=
  { p with bg_bright := match getStrField fields "bg_bright" with
    | some s => u8Int (atoiStr s) | none => p.bg_bright }
/-- Notification block updating `bg_rgb`. -/
def nuBgRgb (fields : List (String × CJson)) (p : Props) : Props :=
  { p with bg_rgb := match getStrField fields "bg_rgb" with
    | some s => u32Int (atoiStr s) | none => p.bg_rgb }
/-- Notification block updating `bg_hue`. -/
def nuBgHue (fields : List (String × CJson)) (p : Props) : Props :=
  { p with bg_hue := match getStrField fields "bg_hue" with
    | some s => u16Int (atoiStr s) | none => p.bg_hue }
/-- Notification block updating `bg_sat`. -/
def nuBgSat (fields : List (String × CJson)) (p : Props) : Props :=
  { p with bg_sat := match getStrField fields "bg_sat" with
    | some s => u8Int (atoiStr s) | none => p.bg_sat }
/-- Notification block updating `nl_br`. -/
def nuNlBr (fields : List (String × CJson)) (p : Props) : Props :=
  { p with nl_br := match getStrField fields "nl_br" with
    | some s => u8Int (atoiStr s) | none => p.nl_br }
/-- Notification block updating `active_mode`. -/
def nuActiveMode (fields : List (String × CJson)) (p : Props) : Props :=
  { p with active_mode := match getStrField fields "active_mode" with
    | some s => atoiStr s = 1 | none => p.active_mode }
/-- Merge of an id-less `props` notification (`Yeelight::onData`, notification
branch): the source's blocks in order; each named field present with a string
value is assigned, everything else is untouched.  The `flow_params` and
`bg_flow_params` blocks of the source assign nothing (their bodies are
commented out) and have no store field. -/
def mergeNotification (fields : List (String × CJson)) (p : Props) : Props :=
  nuActiveMode fields (nuNlBr fields (nuBgSat fields (nuBgHue fields
    (nuBgRgb fields (nuBgBright fields (nuBgColorMode fields (nuBgCt fields
      (nuBgFlowing fields (nuBgPower fields (nuName fields (nuMusicOn fields
        (nuDelayoff fields (nuFlowing fields (nuColorMode fields (nuSat fields
          (nuHue fields (nuRgb fields (nuCt fields (nuBright fields
            (nuPower fields p))))))))))))))))))))
/-- Positional update, index 0: `power` (string only). -/
def fpPower (items : List CJson) (p : Props) : Props :=
  { p with power := match items.get? 0 with
    | some (.str s) => s = "on" | _ => p.power }
/-- Positional update, index 1: `bright`. -/
def fpBright (items : List CJson) (p : Props) : Props :=
  { p with bright := match items.get? 1 with
    | some (.num n) => u8Int n | some (.str s) => u8Int (atoiStr s) | _ => p.bright }
/-- Positional update, index 2: `ct`. -/
def fpCt (items : List CJson) (p : Props) : Props :=
  { p with ct := match items.get? 2 with
    | some (.num n) => u16Int n | some (.str s) => u16Int (atoiStr s) | _ => p.ct }
/-- Positional update, index 3: `rgb`. -/
def fpRgb (items : List CJson) (p : Props) : Props :=
  { p with rgb := match items.get? 3 with
    | some (.num n) => u32Int n | some (.str s) => u32Int (atoiStr s) | _ => p.rgb }
/-- Positional update, index 4: `hue`. -/
def fpHue (items : List CJson) (p : Props) : Props :=
  { p with hue := match items.get? 4 with
    | some (.num n) => u16Int n | some (.str s) => u16Int (atoiStr s) | _ => p.hue }
/-- Positional update, index 5: `sat`. -/
def fpSat (items : List CJson) (p : Props) : Props :=
  { p with sat := match items.get? 5 with
    | some (.num n) => u8Int n | some (.str s) => u8Int (atoiStr s) | _ => p.sat }
/-- Positional update, index 6: `color_mode` (via a `uint8_t` cast). -/
def fpColorMode (items : List CJson) (p : Props) : Props :=
  { p with color_mode := match items.get? 6 with
    | some (.num n) => colorModeOfInt (u8Int n)
    | some (.str s) => colorModeOfInt (u8Int (atoiStr s))
    | _ => p.color_mode }
/-- Positional update, index 7: `flowing`. -/
def fpFlowing (items : List CJson) (p : Props) : Props :=
  { p with flowing := match items.get? 7 with
    | some (.num n) => n = 1 | some (.str s) => atoiStr s = 1 | _ => p.flowing }
/-- Positional update, index 8: `delayoff`. -/
def fpDelayoff (items : List CJson) (p : Props) : Props :=
  { p with delayoff := match items.get? 8 with
    | some (.num n) => u8Int n | some (.str s) => u8Int (atoiStr s) | _ => p.delayoff }
/-- Positional update, index 9: `music_on`. -/
def fpMusicOn (items : List CJson) (p : Props) : Props :=
  { p with music_on := match items.get? 9 with
    | some (.num n) => n = 1 | some (.str s) => atoiStr s = 1 | _ => p.music_on }
/-- Positional update, index 10: `name` (string only). -/
def fpName (items : List CJson) (p : Props) : Props :=
  { p with name := match items.get? 10 with
    | some (.str s) => s | _ => p.name }
/-- Positional update, index 11: `bg_power` (string only). -/
def fpBgPower (items : List CJson) (p : Props) : Props :=
  { p with bg_power := match items.get? 11 with
    | some (.str s) => s = "on" | _ => p.bg_power }
/-- Positional update, index 12: `bg_flowing`. -/
def fpBgFlowing (items : List CJson) (p : Props) : Props :=
  { p with bg_flowing := match items.get? 12 with
    | some (.num n) => n = 1 | some (.str s) => atoiStr s = 1 | _ => p.bg_flowing }
/-- Positional update, index 13: `bg_ct`. -/
def fpBgCt (items : List CJson) (p : Props) : Props :=
  { p with bg_ct := match items.get? 13 with
    | some (.num n) => u16Int n | some (.str s) => u16Int (atoiStr s) | _ => p.bg_ct }
/-- Positional update, index 14: `bg_color_mode` (via a `uint8_t` cast). -/
def fpBgColorMode (items : List CJson) (p : Props) : Props :=
  { p with bg_color_mode := match items.get? 14 with
    | some (.num n) => colorModeOfInt (u8Int n)
    | some (.str s) => colorModeOfInt (u8Int (atoiStr s))
    | _ => p.bg_color_mode }
/-- Positional update, index 15: `bg_bright`. -/
def fpBgBright (items : List CJson) (p : Props) : Props :=
  { p with bg_bright := match items.get? 15 with
    | some (.num n) => u8Int n | some (.str s) => u8Int (atoiStr s) | _ => p.bg_bright }
/-- Positional update, index 16: `bg_rgb`. -/
def fpBgRgb (items : List CJson) (p : Props) : Props :=
  { p with bg_rgb := match items.get? 16 with
    | some (.num n) => u32Int n | some (.str s) => u32Int (atoiStr s) | _ => p.bg_rgb }
/-- Positional update, index 17: `bg_hue`. -/
def fpBgHue (items : List CJson) (p : Props) : Props :=
  { p with bg_hue := match items.get? 17 with
    | some (.num n) => u16Int n | some (.str s) => u16Int (atoiStr s) | _ => p.bg_hue }
/-- Positional update, index 18: `bg_sat`. -/
def fpBgSat (items : List CJson) (p : Props) : Props :=
  { p with bg_sat := match items.get? 18 with
    | some (.num n) => u8Int n | some (.str s) => u8Int (atoiStr s) | _ => p.bg_sat }
/-- Positional update, index 19: `nl_br`. -/
def fpNlBr (items : List CJson) (p : Props) : Props :=
  { p with nl_br := match items.get? 19 with
    | some (.num n) => u8Int n | some (.str s) => u8Int (atoiStr s) | _ => p.nl_br }
/-- Positional update, index 20: `active_mode`. -/
def fpActiveMode (items : List CJson) (p : Props) : Props :=
  { p with active_mode := match items.get? 20 with
    | some (.num n) => n = 1 | some (.str s) => atoiStr s = 1 | _ => p.active_mode }
/-- Merge of a ≥21-element positional `result` array (`Yeelight::onData`, full
property payload): at each index a number is cast natively and a string goes
through `atoi`; anything else leaves the field untouched. -/
def mergeFullProps (items : List CJson) (p : Props) : Props :=
  fpActiveMode items (fpNlBr items (fpBgSat items (fpBgHue items
    (fpBgRgb items (fpBgBright items (fpBgColorMode items (fpBgCt items
      (fpBgFlowing items (fpBgPower items (fpName items (fpMusicOn items
        (fpDelayoff items (fpFlowing items (fpColorMode items (fpSat items
          (fpHue items (fpRgb items (fpCt items (fpBright items
            (fpPower items p))))))))))))))))))))
/-- The cross-line state of the frame reader: the Pending-Response Table
(`responses`) and the Property Store (`properties`). -/
structure RxCore where
  responses : Nat → Option ResponseType
  properties : Props
/-- `responses[id] = v` on the pending-response map. -/
def setResponse (r : Nat → Option ResponseType) (id : Nat) (v : ResponseType) :
    Nat → Option ResponseType :=
  fun k => if k = id then some v else r k
/-- Handling of one successfully parsed line (`Yeelight::onData` body).  The
`Bool` is false exactly when the C++ `return`s from inside the loop (a `props`
notification whose `params` is missing or not an object), abandoning the rest
of the buffered input until the next data callback. -/
def processLine (root : CJson) (core : RxCore) : RxCore × Bool :=
  match getMember root "id" with
  | some idItem =>
    let id := u16Int (cjValueInt idItem)
    match getMember root "result" with
    | some result_array =>
      if ¬cjIsArray result_array then
        ({ core with responses := setResponse core.responses id .UNEXPECTED_RESPONSE }, true)
      else
        let items := cjArrItems result_array
        if (match items.get? 0 with | some (.str s) => (s = "ok" : Bool) | _ => false) then
          ({ core with responses := setResponse core.responses id .SUCCESS }, true)
        else if items.length < 21 then
          ({ core with responses := setResponse core.responses id .UNEXPECTED_RESPONSE }, true)
        else
          ({ properties := mergeFullProps items core.properties,
             responses := setResponse core.responses id .SUCCESS }, true)
    | none =>
      match getMember root "error" with
      | some _ => ({ core with responses := setResponse core.responses id .ERROR }, true)
      | none => (core, true)
  | none =>
    match getMember root "method" with
    | some methodItem =>
      match cjValueString methodItem with
      | some methodName =>
        if methodName = "props" then
          match getMember root "params" with
          | some (.obj fields) => ({ core with properties := mergeNotification fields core.properties }, true)
          | some _ => (core, false)
          | none => (core, false)
        else (core, true)
      | none => (core, true)
    | none => (core, true)
/-- The trailing-whitespace trim of `Yeelight::onData`
(`'\r'`, `' '`, `'\t'` popped from the back). -/
def rtrim (cs : List Char) : List Char :=
  (cs.reverse.dropWhile (fun c => c = '\r' ∨ c = ' ' ∨ c = '\t')).reverse
/-- Index of the first `'\n'` (`partialResponse.find('\n')`). -/
def idxNewline : List Char → Option Nat
  | [] => none
  | c :: cs => if c = '\n' then some 0 else (idxNewline cs).map (· + 1)
theorem idxNewline_lt {cs : List Char} {pos : Nat} (h : idxNewline cs = some pos) :
    pos < cs.length := by
  induction cs generalizing pos with
  | nil => simp [idxNewline] at h
  | cons c cs ih =>
    simp only [idxNewline] at h
    by_cases hc : c = '\n'
    · rw [if_pos hc] at h
      injection h with h
      subst h
      simp
    · rw [if_neg hc] at h
      cases hq : idxNewline cs with
      | none => rw [hq] at h; exact absurd h (by simp)
      | some q =>
        rw [hq] at h
        simp only [Option.map] at h
        injection h with h
        have := ih hq
        simp only [List.length_cons]
        omega
/-- The line-extraction loop of `Yeelight::onData`: while the buffer holds a
`'\n'`, remove everything up to and including it, trim, skip empty lines and
parse failures, and process parsed lines; a `false` continuation flag is the
in-loop `return`. -/
def runLines (parse : List Char → Option CJson) :
    List Char → RxCore → List Char × RxCore
  | buf, core =>
    match hpos : idxNewline buf with
    | none => (buf, core)
    | some pos =>
      let line := rtrim (buf.take pos)
      let rest := buf.drop (pos + 1)
      if line = [] then runLines parse rest core
      else
        match parse line with
        | none => runLines parse rest core
        | some root =>
          let r := processLine root core
          if r.2 then runLines parse rest r.1 else (rest, r.1)
  termination_by buf _ => buf.length
  decreasing_by
    all_goals
      have hlt := idxNewline_lt hpos
      simp only [List.length_drop]
      omega
/-- `Yeelight::onData`: append the chunk to the partial buffer, then run the
line-extraction loop.  The state is the partial buffer plus the cross-line
`RxCore`. -/
def onData (parse : List Char → Option CJson) (st : List Char × RxCore)
    (chunk : List Char) : List Char × RxCore :=
  runLines parse (st.1 ++ chunk) st.2
/-- The zero-initialized `YeelightProperties` of a fresh session
(`properties()` in the constructor init lists). -/
def propsInit : Props :=
  ⟨false, 0, 0, 0, 0, 0, .COLOR_MODE_UNKNOWN, false, 0, false, "",
   false, false, 0, .COLOR_MODE_UNKNOWN, 0, 0, 0, 0, 0, false⟩
/-- A fresh frame-reader core: empty pending-response table, zeroed store. -/
def rxInit : RxCore := ⟨fun _ => none, propsInit⟩
/-- The capability set of a device advertising only `set_music`. -/
def capsMusicOnly : SupportedMethods :=
  { SupportedMethods.none with set_music := true }
/-! ## Lemmas and claim theorems -/

theorem digitsRevFuel_sound :
    ∀ fuel n, n < fuel → valRev (digitsRevFuel fuel n) = n := by
  intro fuel
  induction fuel with
  | zero => intro n h; omega
  | succ f ih =>
    intro n h
    unfold digitsRevFuel
    by_cases h10 : n < 10
    · simp [h10, valRev]
    · simp only [h10, if_false, valRev]
      have hdiv : n / 10 < f := by omega
      rw [ih (n / 10) hdiv]
      omega
theorem digitsRevFuel_digits_lt :
    ∀ fuel n d, d ∈ digitsRevFuel fuel n → d < 10 := by
  intro fuel
  induction fuel with
  | zero => intro n d h; simp [digitsRevFuel] at h
  | succ f ih =>
    intro n d h
    unfold digitsRevFuel at h
    by_cases h10 : n < 10
    · simp [h10] at h; omega
    · simp only [h10, if_false, List.mem_cons] at h
      rcases h with h | h
      · omega
      · exact ih _ _ h
theorem digitsRevFuel_ne_nil : ∀ fuel n, 0 < fuel → digitsRevFuel fuel n ≠ [] := by
  intro fuel n h
  cases fuel with
  | zero => omega
  | succ f =>
    unfold digitsRevFuel
    by_cases h10 : n < 10 <;> simp [h10]
theorem natToChars_ne_nil (n : Nat) : natToChars n ≠ [] := by
  unfold natToChars
  simp only [ne_eq, List.map_eq_nil_iff, List.reverse_eq_nil_iff]
  exact digitsRevFuel_ne_nil _ _ (Nat.succ_pos n)
theorem digitToChar_toNat {d : Nat} (h : d < 10) : (digitToChar d).toNat = 48 + d := by
  interval_cases d <;> rfl
theorem digitToChar_isDigit {d : Nat} (h : d < 10) : isDigitChar (digitToChar d) = true := by
  unfold isDigitChar
  rw [digitToChar_toNat h]
  simp; omega
theorem natToChars_all_digits (n : Nat) : (natToChars n).all isDigitChar = true := by
  unfold natToChars
  rw [List.all_eq_true]
  intro c hc
  simp only [List.mem_map, List.mem_reverse] at hc
  obtain ⟨d, hd, rfl⟩ := hc
  exact digitToChar_isDigit (digitsRevFuel_digits_lt _ _ _ hd)
theorem foldl_digits_append (ds : List Nat) (hds : ∀ d ∈ ds, d < 10) :
    ∀ a, (ds.reverse.map digitToChar).foldl (fun x c => x * 10 + (c.toNat - 48)) a
      = a * 10 ^ ds.length + valRev ds := by
  induction ds with
  | nil => intro a; simp [valRev]
  | cons d ds ih =>
    intro a
    have hd : d < 10 := hds d (List.mem_cons_self _ _)
    have hds' : ∀ x ∈ ds, x < 10 := fun x hx => hds x (List.mem_cons_of_mem _ hx)
    simp only [List.reverse_cons, List.map_append, List.map, List.foldl_append,
      List.foldl_cons, List.foldl_nil]
    rw [ih hds' a, digitToChar_toNat hd]
    have h48 : 48 + d - 48 = d := by omega
    rw [h48]
    simp only [valRev, List.length_cons, pow_succ]
    ring
theorem parseNatChars_natToChars (n : Nat) : parseNatChars (natToChars n) = some n := by
  unfold parseNatChars
  rw [if_neg (natToChars_ne_nil n), if_pos (natToChars_all_digits n)]
  unfold natToChars
  rw [foldl_digits_append _ (fun d hd => digitsRevFuel_digits_lt _ _ _ hd) 0]
  rw [digitsRevFuel_sound (n + 1) n (Nat.lt_succ_self n)]
  simp
theorem natToChars_no_comma (n : Nat) : ',' ∉ natToChars n := by
  intro h
  have := natToChars_all_digits n
  rw [List.all_eq_true] at this
  have := this ',' h
  simp [isDigitChar] at this
theorem natToChars_no_newline (n : Nat) : '\n' ∉ natToChars n := by
  intro h
  have := natToChars_all_digits n
  rw [List.all_eq_true] at this
  have := this '\n' h
  simp [isDigitChar] at this
theorem splitComma_cons (c : Char) (cs : List Char) :
    splitComma (c :: cs) =
      if c = ',' then [] :: splitComma cs else consTok c (splitComma cs) := rfl
theorem splitComma_no_comma (t : List Char) (h : ',' ∉ t) : splitComma t = [t] := by
  induction t with
  | nil => rfl
  | cons c rest ih =>
    have hc : ¬ c = ',' := fun hc => h (hc ▸ List.mem_cons_self _ _)
    have hr : ',' ∉ rest := fun hr => h (List.mem_cons_of_mem _ hr)
    rw [splitComma_cons, if_neg hc, ih hr]
    rfl
theorem splitComma_append (t rest : List Char) (h : ',' ∉ t) :
    splitComma (t ++ ',' :: rest) = t :: splitComma rest := by
  induction t with
  | nil => simp [splitComma_cons]
  | cons c t' ih =>
    have hc : ¬ c = ',' := fun hc => h (hc ▸ List.mem_cons_self _ _)
    have ht' : ',' ∉ t' := fun ht => h (List.mem_cons_of_mem _ ht)
    rw [List.cons_append, splitComma_cons, if_neg hc, ih ht']
    rfl
theorem splitComma_joinComma (ts : List (List Char))
    (hne : ts ≠ []) (h : ∀ t ∈ ts, ',' ∉ t) :
    splitComma (joinComma ts) = ts := by
  induction ts with
  | nil => exact absurd rfl hne
  | cons t ts ih =>
    cases ts with
    | nil =>
      unfold joinComma
      exact splitComma_no_comma t (h t (List.mem_cons_self _ _))
    | cons t2 ts2 =>
      show splitComma (t ++ ',' :: joinComma (t2 :: ts2)) = _
      rw [splitComma_append t _ (h t (List.mem_cons_self _ _))]
      rw [ih (by simp) (fun x hx => h x (List.mem_cons_of_mem _ hx))]
theorem joinComma_append (xs ys : List (List Char)) (hx : xs ≠ []) (hy : ys ≠ []) :
    joinComma (xs ++ ys) = joinComma xs ++ ',' :: joinComma ys := by
  induction xs with
  | nil => exact absurd rfl hx
  | cons t xs ih =>
    cases xs with
    | nil =>
      cases ys with
      | nil => exact absurd rfl hy
      | cons y ys => simp [joinComma]
    | cons t2 xs2 =>
      have h1 : joinComma ((t :: t2 :: xs2) ++ ys) = t ++ ',' :: joinComma ((t2 :: xs2) ++ ys) := rfl
      have h2 : joinComma (t :: t2 :: xs2) = t ++ ',' :: joinComma (t2 :: xs2) := rfl
      rw [h1, ih (by simp), h2, List.append_assoc]
      rfl
theorem stepChars_eq_join (e : FlowExpr) : stepChars e = joinComma (stepToks e) := rfl
theorem flowExpressionChars_eq_join (steps : List FlowExpr) (h : steps ≠ []) :
    flowExpressionChars steps = joinComma (steps.flatMap stepToks) := by
  induction steps with
  | nil => exact absurd rfl h
  | cons e steps ih =>
    cases steps with
    | nil =>
      show ((stepChars e ++ [',']) ++ []).dropLast = _
      rw [List.append_nil, List.dropLast_concat]
      simp [stepChars_eq_join, stepToks, joinComma]
    | cons e2 steps2 =>
      have hne : (e2 :: steps2).flatMap (fun x => stepChars x ++ [',']) ≠ [] := by
        rw [List.flatMap_cons]
        simp [stepChars]
      have hj : (e2 :: steps2).flatMap stepToks ≠ [] := by
        rw [List.flatMap_cons]
        simp [stepToks]
      have h1 : flowExpressionChars (e :: e2 :: steps2)
          = (stepChars e ++ [',']) ++ flowExpressionChars (e2 :: steps2) := by
        unfold flowExpressionChars
        rw [List.flatMap_cons]
        exact List.dropLast_append_of_ne_nil _ hne
      rw [h1, ih (by simp)]
      conv_rhs => rw [List.flatMap_cons]
      rw [joinComma_append _ _ (by simp [stepToks]) hj,
        ← stepChars_eq_join, List.append_assoc]
      rfl
theorem flowModeOfCode_flowModeCode (m : FlowMode) :
    flowModeOfCode (flowModeCode m) = some m := by
  cases m <;> rfl
theorem decodeStep_stepToks (e : FlowExpr) (he : e.wf) :
    decodeStep (natToChars e.duration) (natToChars (flowModeCode e.mode))
      (natToChars e.value) (natToChars e.brightness) = some e := by
  obtain ⟨h1, h2, h3⟩ := he
  simp [decodeStep, parseNatChars_natToChars, flowModeOfCode_flowModeCode]
  omega
theorem decodeFlowToks_cons4 (t1 t2 t3 t4 : List Char) (rest : List (List Char)) :
    decodeFlowToks (t1 :: t2 :: t3 :: t4 :: rest) =
      match decodeStep t1 t2 t3 t4, decodeFlowToks rest with
      | some e, some es => some (e :: es)
      | _, _ => none := rfl
theorem decodeFlowToks_flatMap (steps : List FlowExpr) (h : ∀ e ∈ steps, e.wf) :
    decodeFlowToks (steps.flatMap stepToks) = some steps := by
  induction steps with
  | nil => rfl
  | cons e steps ih =>
    rw [List.flatMap_cons]
    show decodeFlowToks (natToChars e.duration :: natToChars (flowModeCode e.mode) ::
      natToChars e.value :: natToChars e.brightness :: steps.flatMap stepToks) = _
    rw [decodeFlowToks_cons4,
      decodeStep_stepToks e (h e (List.mem_cons_self _ _)),
      ih (fun x hx => h x (List.mem_cons_of_mem _ hx))]
theorem stepToks_no_comma (e : FlowExpr) : ∀ t ∈ stepToks e, ',' ∉ t := by
  intro t ht
  simp only [stepToks, List.mem_cons, List.mem_singleton] at ht
  rcases ht with rfl | rfl | rfl | (rfl | h)
  · exact natToChars_no_comma _
  · exact natToChars_no_comma _
  · exact natToChars_no_comma _
  · exact natToChars_no_comma _
  · simp at h
theorem decodeFlowChars_encode (steps : List FlowExpr)
    (hne : steps ≠ []) (hwf : ∀ e ∈ steps, e.wf) :
    decodeFlowChars (flowExpressionChars steps) = some steps := by
  unfold decodeFlowChars
  rw [flowExpressionChars_eq_join steps hne]
  rw [splitComma_joinComma _ (by cases steps with
        | nil => exact absurd rfl hne
        | cons e s => simp [List.flatMap_cons, stepToks])
      (by intro t ht
          rw [List.mem_flatMap] at ht
          obtain ⟨e, _, hte⟩ := ht
          exact stepToks_no_comma e t hte)]
  exact decodeFlowToks_flatMap steps hwf
theorem refreshLoop_le (refreshOk : Nat → Bool) :
    ∀ budget tries, (refreshLoop refreshOk budget tries).2 ≤ tries + budget := by
  intro budget
  induction budget with
  | zero => intro tries; simp [refreshLoop]
  | succ b ih =>
    intro tries
    unfold refreshLoop
    by_cases h : refreshOk tries
    · simp [h]
    · simp [h]
      calc (refreshLoop refreshOk b (tries + 1)).2 ≤ (tries + 1) + b := ih (tries + 1)
        _ = tries + (b + 1) := by omega
theorem idxNewline_eq_none {cs : List Char} (h : '\n' ∉ cs) : idxNewline cs = none := by
  induction cs with
  | nil => rfl
  | cons c cs ih =>
    have hc : ¬ c = '\n' := fun hc => h (hc ▸ List.mem_cons_self _ _)
    simp only [idxNewline, hc, if_false]
    rw [ih (fun hm => h (List.mem_cons_of_mem _ hm))]
    rfl
theorem idxNewline_append {A : List Char} (B : List Char) (h : '\n' ∉ A) :
    idxNewline (A ++ '\n' :: B) = some A.length := by
  induction A with
  | nil => simp [idxNewline]
  | cons c A ih =>
    have hc : ¬ c = '\n' := fun hc => h (hc ▸ List.mem_cons_self _ _)
    simp only [List.cons_append, idxNewline, hc, if_false, List.append_eq]
    rw [ih (fun hm => h (List.mem_cons_of_mem _ hm))]
    simp [List.length_cons]
theorem runLines_no_newline (parse : List Char → Option CJson)
    (buf : List Char) (core : RxCore) (h : '\n' ∉ buf) :
    runLines parse buf core = (buf, core) := by
  rw [runLines]
  split
  · rfl
  · rename_i pos heq
    rw [idxNewline_eq_none h] at heq
    exact absurd heq (by simp)
theorem runLines_single (parse : List Char → Option CJson)
    (A : List Char) (core : RxCore) (h : '\n' ∉ A) :
    runLines parse (A ++ ['\n']) core =
      ([],
        if rtrim A = [] then core
        else match parse (rtrim A) with
          | none => core
          | some root => (processLine root core).1) := by
  rw [runLines]
  have hidx : idxNewline (A ++ ['\n']) = some A.length := idxNewline_append [] h
  split
  · rename_i heq
    rw [hidx] at heq
    exact absurd heq (by simp)
  · rename_i pos heq
    rw [hidx] at heq
    injection heq with heq
    subst heq
    have htake : (A ++ ['\n']).take A.length = A := by
      rw [List.take_append_of_le_length (le_refl _), List.take_length]
    have hdrop : (A ++ ['\n']).drop (A.length + 1) = [] := by
      rw [show A.length + 1 = (A ++ ['\n']).length by simp, List.drop_length]
    rw [htake, hdrop]
    by_cases hempty : rtrim A = []
    · rw [if_pos hempty, if_pos hempty]
      exact runLines_no_newline parse [] core (by simp)
    · rw [if_neg hempty, if_neg hempty]
      cases hp : parse (rtrim A) with
      | none => exact runLines_no_newline parse [] core (by simp)
      | some root =>
        by_cases hcont : (processLine root core).2

        · simp only [hcont, if_true]
          exact runLines_no_newline parse [] _ (by simp)
        · simp only [hcont, if_false]
          simp at hcont
          simp [hcont]
/-! ## Claim theorems -/
/-- C2, counterexample: with `connecting = false`, a successful allocation and
one failed low-level connect attempt, `Yeelight::connect()` returns
`CONNECTION_FAILED` having made exactly one attempt, although the configured
maximum `max_retry` (5 in the default constructor) leaves retries remaining —
the claim that `connect()` retries the attempt up to `max_retry` before
returning `CONNECTION_FAILED` is false. -/
theorem connect_single_attempt_fails :
    connect false true false = (.CONNECTION_FAILED, 1) ∧ 1 < defaultMaxRetry := by
  constructor
  · rfl
  · decide
/-- C2, amended: `connect()` makes at most one TCP connect attempt and returns
`CONNECTION_FAILED` immediately when that single attempt fails; the
`max_retry`-bounded loop with its fixed 250 ms delay wraps only the
supported-methods refresh in `connect(ip, port)` (and the constructors), and
never changes the connect outcome. -/
theorem connect_no_retry :
    (∀ c a t, (connect c a t).2 ≤ 1) ∧
    connect false true false = (.CONNECTION_FAILED, 1) ∧
    (∀ mr f c a t, connect_ip_port mr f c a t = connect c a t) ∧
    (∀ f budget tries, (refreshLoop f budget tries).2 ≤ tries + budget) := by
  refine ⟨?_, rfl, ?_, refreshLoop_le⟩
  · intro c a t
    unfold connect
    split
    · simp
    · split
      · simp
      · split <;> simp
  · intro mr f c a t
    rfl
/-- C3: the claim says `enable_music_mode()` first sends `set_music` and only
then blocks on the single-slot rendezvous.  In the source the
`xSemaphoreTake(music_sem, pdMS_TO_TICKS(1000))` comes first and
`set_music_command` runs only after the wait succeeds, so when the rendezvous
is not signalled within the bound the call returns `CONNECTION_FAILED` having
sent nothing — and the device was never told to connect back, so on a fresh
session the rendezvous cannot be signalled at all.  The second conjunct shows
the `set_music` frame is handed over only on the post-wait path. -/
theorem enable_music_mode_waits_before_send :
    enable_music_mode capsMusicOnly (fun _ => .SUCCESS) (192, 168, 1, 2) false
      = (.CONNECTION_FAILED, []) ∧
    (enable_music_mode capsMusicOnly (fun _ => .SUCCESS) (192, 168, 1, 2) true).2
      = [⟨"set_music", [.num 1, .str "192.168.1.2", .num 55443]⟩] := by
  constructor
  · rfl
  · rfl
/-- C10: the destructor erases the `devices` entry for its address only when
that entry still points at the session being destroyed; after
`safeInsertDevice` has installed a later session under the same address, the
earlier session's destructor leaves the registry untouched. -/
theorem destructor_erases_only_own_entry :
    (∀ (m : Registry) (ip32 sid : Nat), m ip32 = some sid →
      destructorRegistry m ip32 sid ip32 = none ∧
      ∀ k, k ≠ ip32 → destructorRegistry m ip32 sid k = m k) ∧
    (∀ (m : Registry) (ip32 s1 s2 : Nat), s1 ≠ s2 →
      destructorRegistry (safeInsertDevice m ip32 s2) ip32 s1
        = safeInsertDevice m ip32 s2) := by
  constructor
  · intro m ip32 sid hm
    unfold destructorRegistry
    rw [hm]
    simp only [if_pos rfl]
    constructor
    · simp
    · intro k hk
      simp [hk]
  · intro m ip32 s1 s2 hne
    have hat : safeInsertDevice m ip32 s2 ip32 = some s2 := by
      unfold safeInsertDevice
      cases m ip32 with
      | none => simp
      | some owner =>
        by_cases h : owner ≠ s2 <;> simp [h]
    unfold destructorRegistry
    rw [hat]
    simp [Ne.symm hne]
/-- C10 witness. -/
theorem destructor_erases_only_own_entry_witness :
    ((fun k => if k = 1 then some 10 else none) : Registry) 1 = some 10 ∧
    (10 : Nat) ≠ 20 ∧
    destructorRegistry (fun k => if k = 1 then some 10 else none) 1 10 1 = none ∧
    destructorRegistry (safeInsertDevice (fun _ => none) 1 20) 1 10
      = safeInsertDevice (fun _ => none) 1 20 := by
  refine ⟨rfl, by decide, ?_, ?_⟩
  · exact ((destructor_erases_only_own_entry.1
      (fun k => if k = 1 then some 10 else none) 1 10 rfl).1)
  · exact destructor_erases_only_own_entry.2 (fun _ => none) 1 10 20 (by decide)
/-- C6: for a non-empty step sequence, `start_cf_command` hands `send_command`
the repeat count, the terminal-action code, and one string joining every
step's duration, step-kind code, value and brightness with commas and no
trailing separator; in particular the two-step example encodes to
`[0, 0, "500,1,16711680,100,500,1,65280,1"]`. -/
theorem start_cf_params_shape :
    (∀ (count : Nat) (action : FlowAction) (steps : List FlowExpr), steps ≠ [] →
      start_cf_params count action steps =
        [.num count, .num (flowActionCode action),
         .str ⟨joinComma (steps.flatMap stepToks)⟩]) ∧
    start_cf_params 0 .FLOW_RECOVER
        [⟨500, .FLOW_COLOR, 0xFF0000, 100⟩, ⟨500, .FLOW_COLOR, 0x00FF00, 1⟩]
      = [.num 0, .num 0, .str "500,1,16711680,100,500,1,65280,1"] := by
  constructor
  · intro count action steps h
    unfold start_cf_params
    rw [flowExpressionChars_eq_join steps h]
  · rfl
/-- C6 witness. -/
theorem start_cf_params_shape_witness :
    ([⟨500, .FLOW_COLOR, 0xFF0000, 100⟩] : List FlowExpr) ≠ [] ∧
    start_cf_params 7 .FLOW_STAY [⟨500, .FLOW_COLOR, 0xFF0000, 100⟩] =
      [.num 7, .num (flowActionCode .FLOW_STAY),
       .str ⟨joinComma (([⟨500, .FLOW_COLOR, 0xFF0000, 100⟩] : List FlowExpr).flatMap stepToks)⟩] :=
  ⟨by decide, start_cf_params_shape.1 7 .FLOW_STAY _ (by decide)⟩
/-- C7: the flow codec round-trips — `decode` (modelled from the spec, which
describes it as the inverse of the encoding; the repository itself contains no
decoder) recovers any non-empty machine-representable step sequence from its
encoding, and re-encoding a decoded well-formed wire string gives the string
back. -/
theorem flow_codec_roundtrip :
    (∀ steps : List FlowExpr, steps ≠ [] → (∀ e ∈ steps, e.wf) →
      decodeFlowChars (flowExpressionChars steps) = some steps) ∧
    (∀ s : List Char, WellFormedFlowChars s →
      (decodeFlowChars s).map flowExpressionChars = some s) := by
  constructor
  · exact decodeFlowChars_encode
  · intro s hs
    obtain ⟨steps, hne, hwf, rfl⟩ := hs
    rw [decodeFlowChars_encode steps hne hwf]
    rfl
/-- C7 witness. -/
theorem flow_codec_roundtrip_witness :
    ([⟨500, .FLOW_COLOR, 16711680, 100⟩, ⟨500, .FLOW_COLOR, 65280, 1⟩] : List FlowExpr) ≠ [] ∧
    (∀ e ∈ ([⟨500, .FLOW_COLOR, 16711680, 100⟩, ⟨500, .FLOW_COLOR, 65280, 1⟩] : List FlowExpr), e.wf) ∧
    decodeFlowChars (flowExpressionChars
        [⟨500, .FLOW_COLOR, 16711680, 100⟩, ⟨500, .FLOW_COLOR, 65280, 1⟩])
      = some [⟨500, .FLOW_COLOR, 16711680, 100⟩, ⟨500, .FLOW_COLOR, 65280, 1⟩] :=
  ⟨by decide, by decide,
    flow_codec_roundtrip.1 _ (by decide) (by decide)⟩
/-- C1, counterexample: `Yeelight::set_power` checks the capability gate
before the duration range check, so `set_power` with `duration = 10 < 30` and
both `set_power` and `bg_set_power` capability bits false returns
`METHOD_NOT_SUPPORTED`, not `INVALID_PARAMS` as the claim requires (no bytes
are written either way). -/
theorem set_power_gate_before_validation :
    set_power SupportedMethods.none (fun _ => .SUCCESS) true .EFFECT_SMOOTH 10
        .MODE_CURRENT .AUTO
      = (.METHOD_NOT_SUPPORTED, []) ∧
    ResponseType.METHOD_NOT_SUPPORTED ≠ ResponseType.INVALID_PARAMS := by
  constructor
  · rfl
  · decide
/-- C1, amended: an out-of-range parameter is rejected before any frame is
handed to `send_command` (zero network writes), and the result is
`INVALID_PARAMS` — except that in `set_power` the capability gate runs first,
so when both `set_power` and `bg_set_power` bits are false an out-of-range
duration yields `METHOD_NOT_SUPPORTED` (still with zero writes).  In
`set_brightness`, `set_hsv_color` and `set_color_temp` the range checks
precede the gate and `INVALID_PARAMS` is returned regardless of capability
state. -/
theorem validation_rejects_before_io :
    (∀ caps reply power e d m lt, d < 30 →
      set_power caps reply power e d m lt =
        (if ¬caps.set_power ∧ ¬caps.bg_set_power
          then ResponseType.METHOD_NOT_SUPPORTED else .INVALID_PARAMS, [])) ∧
    (∀ caps reply b e d lt, b < 1 ∨ 100 < b ∨ d < 30 →
      set_brightness caps reply b e d lt = (.INVALID_PARAMS, [])) ∧
    (∀ caps reply hue sat e d lt, 359 < hue ∨ 100 < sat ∨ d < 30 →
      set_hsv_color caps reply hue sat e d lt = (.INVALID_PARAMS, [])) ∧
    (∀ caps reply ct e d lt, ct < 1700 ∨ 6500 < ct →
      set_color_temp caps reply ct e d lt = (.INVALID_PARAMS, [])) := by
  refine ⟨?_, ?_, ?_, ?_⟩
  · intro caps reply power e d m lt hd
    unfold set_power
    by_cases hc : ¬caps.set_power ∧ ¬caps.bg_set_power
    · rw [if_pos hc, if_pos hc]
    · rw [if_neg hc, if_pos hd, if_neg hc]
  · intro caps reply b e d lt h
    unfold set_brightness
    by_cases h1 : b < 1 ∨ b > 100
    · rw [if_pos h1]
    · rw [if_neg h1, if_pos (by omega)]
  · intro caps reply hue sat e d lt h
    unfold set_hsv_color
    by_cases h1 : hue > 359
    · rw [if_pos h1]
    · rw [if_neg h1]
      by_cases h2 : sat > 100
      · rw [if_pos h2]
      · rw [if_neg h2, if_pos (by omega)]
  · intro caps reply ct e d lt h
    unfold set_color_temp
    rw [if_pos (by omega)]
/-- C1 amended, witness. -/
theorem validation_rejects_before_io_witness :
    (10 : Nat) < 30 ∧
    set_power SupportedMethods.none (fun _ => .SUCCESS) true .EFFECT_SMOOTH 10
        .MODE_CURRENT .MAIN_LIGHT =
      (if ¬SupportedMethods.none.set_power ∧ ¬SupportedMethods.none.bg_set_power
        then ResponseType.METHOD_NOT_SUPPORTED else .INVALID_PARAMS, []) :=
  ⟨by decide,
    validation_rejects_before_io.1 SupportedMethods.none (fun _ => .SUCCESS)
      true .EFFECT_SMOOTH 10 .MODE_CURRENT .MAIN_LIGHT (by decide)⟩
/-- Membership in the frames of an `andThen`-composed outcome. -/
theorem mem_andThen {c : Cmd} {o1 o2 : Outcome} (h : c ∈ (andThen o1 o2).2) :
    c ∈ o1.2 ∨ c ∈ o2.2 := by
  unfold andThen at h
  split at h
  · exact Or.inl h
  · simp only at h
    rcases List.mem_append.mp h with h | h
    · exact Or.inl h
    · exact Or.inr h
/-- C9: for a validated hue in `[0, 359]` with `hue > 255`, the scene-based
`set_hsv_color(hue, sat, bright, lightType)` overload and `set_scene_hsv` pass
`static_cast<uint8_t>(hue)` to the `set_scene` command: every frame they hand
to `send_command` carries `hue % 256`, which differs from `hue`. -/
theorem set_hsv_scene_truncates_hue :
    ∀ (caps : SupportedMethods) (reply : Cmd → ResponseType)
      (hue sat bright : Nat) (lt : LightType),
      hue ≤ 359 → 255 < hue → 1 ≤ bright → bright ≤ 100 → sat ≤ 100 →
      (∀ c ∈ (set_hsv_color_bright caps reply hue sat bright lt).2,
        c.params = [.str "hsv", .num (hue % 256), .num sat, .num bright]) ∧
      (∀ c ∈ (set_scene_hsv caps reply hue sat bright lt).2,
        c.params = [.str "hsv", .num (hue % 256), .num sat, .num bright]) ∧
      hue % 256 ≠ hue := by
  intro caps reply hue sat bright lt h359 h255 hb1 hb2 hsat
  have hmain : ∀ c ∈ (set_scene_hsv_command reply (hue % 256) sat bright).2,
      c.params = [.str "hsv", .num (hue % 256), .num sat, .num bright] := by
    intro c hc
    simp only [set_scene_hsv_command, send_command, List.mem_singleton] at hc
    rw [hc]
  have hbg : ∀ c ∈ (bg_set_scene_hsv_command reply (hue % 256) sat bright).2,
      c.params = [.str "hsv", .num (hue % 256), .num sat, .num bright] := by
    intro c hc
    simp only [bg_set_scene_hsv_command, send_command, List.mem_singleton] at hc
    rw [hc]
  have hdispatch : ∀ c ∈ (if ¬caps.set_scene ∧ ¬caps.bg_set_scene then
        ((.METHOD_NOT_SUPPORTED : ResponseType), ([] : List Cmd))
      else if lt = .AUTO then
        if caps.set_scene ∧ caps.bg_set_scene then
          andThen (set_scene_hsv_command reply (hue % 256) sat bright)
            (bg_set_scene_hsv_command reply (hue % 256) sat bright)
        else if caps.set_scene then set_scene_hsv_command reply (hue % 256) sat bright
        else bg_set_scene_hsv_command reply (hue % 256) sat bright
      else if lt = .MAIN_LIGHT then set_scene_hsv_command reply (hue % 256) sat bright
      else if lt = .BACKGROUND_LIGHT then bg_set_scene_hsv_command reply (hue % 256) sat bright
      else if lt = .BOTH then
        andThen (set_scene_hsv_command reply (hue % 256) sat bright)
          (bg_set_scene_hsv_command reply (hue % 256) sat bright)
      else ((.ERROR : ResponseType), ([] : List Cmd))).2,
      c.params = [.str "hsv", .num (hue % 256), .num sat, .num bright] := by
    intro c hc
    split at hc
    · simp at hc
    · split at hc
      · split at hc
        · rcases mem_andThen hc with h | h
          · exact hmain c h
          · exact hbg c h
        · split at hc
          · exact hmain c hc
          · exact hbg c hc
      · split at hc
        · exact hmain c hc
        · split at hc
          · exact hbg c hc
          · split at hc
            · rcases mem_andThen hc with h | h
              · exact hmain c h
              · exact hbg c h
            · simp at hc
  refine ⟨?_, ?_, by omega⟩
  · intro c hc
    apply hdispatch c
    unfold set_hsv_color_bright at hc
    rw [if_neg (by omega), if_neg (by omega), if_neg (by omega)] at hc
    exact hc
  · intro c hc
    apply hdispatch c
    unfold set_scene_hsv at hc
    rw [if_neg (by omega), if_neg (by omega), if_neg (by omega)] at hc
    exact hc
/-- C9 witness. -/
theorem set_hsv_scene_truncates_hue_witness :
    (300 : Nat) ≤ 359 ∧ (255 : Nat) < 300 ∧ (1 : Nat) ≤ 50 ∧ (50 : Nat) ≤ 100 ∧
    (40 : Nat) ≤ 100 ∧
    ((∀ c ∈ (set_hsv_color_bright { SupportedMethods.none with set_scene := true }
        (fun _ => .SUCCESS) 300 40 50 .MAIN_LIGHT).2,
      c.params = [.str "hsv", .num (300 % 256), .num 40, .num 50]) ∧
     (∀ c ∈ (set_scene_hsv { SupportedMethods.none with set_scene := true }
        (fun _ => .SUCCESS) 300 40 50 .MAIN_LIGHT).2,
      c.params = [.str "hsv", .num (300 % 256), .num 40, .num 50]) ∧
     (300 : Nat) % 256 ≠ 300) :=
  ⟨by decide, by decide, by decide, by decide, by decide,
    set_hsv_scene_truncates_hue { SupportedMethods.none with set_scene := true }
      (fun _ => .SUCCESS) 300 40 50 .MAIN_LIGHT
      (by decide) (by decide) (by decide) (by decide) (by decide)⟩
/-- C4, counterexample: a parsed line carrying a numeric id but neither a
`result` nor an `error` member records no outcome at all — the frame reader
leaves the Pending-Response Table (and the whole core) unchanged, where the
claim requires `UNEXPECTED_RESPONSE` under that id. -/
theorem processLine_id_only_records_nothing :
    processLine (CJson.obj [("id", CJson.num 5)]) rxInit = (rxInit, true) ∧
    rxInit.responses 5 = none := ⟨rfl, rfl⟩
/-- C4, amended: for a parsed line with a numeric id, the recorded outcome is:
`UNEXPECTED_RESPONSE` when `result` is present but not an array, `SUCCESS`
when `result` is an array whose first element is the string `"ok"`,
`UNEXPECTED_RESPONSE` when the array has fewer than 21 elements (and no `"ok"`
marker), `SUCCESS` (with a full positional property merge) for an array of at
least 21 elements, `ERROR` when there is no `result` but an `error` member —
and, unlike the claim, a line with an id and neither member records no
outcome. -/
theorem processLine_id_outcomes :
    ∀ (core : RxCore) (n : Int) (res err : Option CJson),
      (processLine (CJson.obj (("id", CJson.num n) ::
          ((match res with | some r => [("result", r)] | none => []) ++
           (match err with | some e0 => [("error", e0)] | none => [])))) core).2
        = true ∧
      (processLine (CJson.obj (("id", CJson.num n) ::
          ((match res with | some r => [("result", r)] | none => []) ++
           (match err with | some e0 => [("error", e0)] | none => [])))) core).1.responses
        = (match res with
           | some r =>
             if ¬cjIsArray r then
               setResponse core.responses (u16Int n) .UNEXPECTED_RESPONSE
             else if (match (cjArrItems r).get? 0 with
                 | some (.str s) => (s = "ok" : Bool) | _ => false) then
               setResponse core.responses (u16Int n) .SUCCESS
             else if (cjArrItems r).length < 21 then
               setResponse core.responses (u16Int n) .UNEXPECTED_RESPONSE
             else
               setResponse core.responses (u16Int n) .SUCCESS
           | none =>
             match err with
             | some _ => setResponse core.responses (u16Int n) .ERROR
             | none => core.responses) := by
  intro core n res err
  cases res with
  | some r =>
    cases err with
    | some e0 =>
      simp only [List.cons_append, List.nil_append]
      have hid : getMember (CJson.obj [("id", CJson.num n), ("result", r), ("error", e0)]) "id"
          = some (CJson.num n) := rfl
      have hres : getMember (CJson.obj [("id", CJson.num n), ("result", r), ("error", e0)]) "result"
          = some r := rfl
      simp only [processLine, hid, hres]
      by_cases hA : cjIsArray r
      · by_cases hOk : (match (cjArrItems r)[0]? with
            | some (CJson.str s) => (s = "ok" : Bool) | _ => false) = true
        · simp [hA, hOk, cjValueInt]
        · by_cases hLen : (cjArrItems r).length < 21
          · simp [hA, hOk, hLen, cjValueInt]
          · simp [hA, hOk, hLen, cjValueInt]
      · simp [hA, cjValueInt]
    | none =>
      simp only [List.cons_append, List.nil_append, List.append_nil]
      have hid : getMember (CJson.obj [("id", CJson.num n), ("result", r)]) "id"
          = some (CJson.num n) := rfl
      have hres : getMember (CJson.obj [("id", CJson.num n), ("result", r)]) "result"
          = some r := rfl
      simp only [processLine, hid, hres]
      by_cases hA : cjIsArray r
      · by_cases hOk : (match (cjArrItems r)[0]? with
            | some (CJson.str s) => (s = "ok" : Bool) | _ => false) = true
        · simp [hA, hOk, cjValueInt]
        · by_cases hLen : (cjArrItems r).length < 21
          · simp [hA, hOk, hLen, cjValueInt]
          · simp [hA, hOk, hLen, cjValueInt]
      · simp [hA, cjValueInt]
  | none =>
    cases err with
    | some e0 =>
      simp only [List.cons_append, List.nil_append]
      have hid : getMember (CJson.obj [("id", CJson.num n), ("error", e0)]) "id"
          = some (CJson.num n) := rfl
      have hres : getMember (CJson.obj [("id", CJson.num n), ("error", e0)]) "result"
          = none := rfl
      have herr : getMember (CJson.obj [("id", CJson.num n), ("error", e0)]) "error"
          = some e0 := rfl
      simp only [processLine, hid, hres, herr]
      exact ⟨trivial, rfl⟩
    | none =>
      simp only [List.cons_append, List.nil_append, List.append_nil]
      have hid : getMember (CJson.obj [("id", CJson.num n)]) "id"
          = some (CJson.num n) := rfl
      have hres : getMember (CJson.obj [("id", CJson.num n)]) "result"
          = none := rfl
      have herr : getMember (CJson.obj [("id", CJson.num n)]) "error"
          = none := rfl
      simp only [processLine, hid, hres, herr]
      exact ⟨trivial, trivial⟩
/-- C8: handling an id-less `props` notification updates exactly the fields
named (with string values) in the `params` object — each named field takes the
value decoded from its string, and every other field keeps the value it had
before the notification was processed. -/
theorem notification_merge_fieldwise :
    ∀ (fields : List (String × CJson)) (core : RxCore),
      (processLine (CJson.obj [("method", CJson.str "props"),
          ("params", CJson.obj fields)]) core).2 = true ∧
      ((processLine (CJson.obj [("method", CJson.str "props"),
          ("params", CJson.obj fields)]) core).1.properties.power
        = (match getStrField fields "power" with
           | some s => (s = "on" : Bool) | none => core.properties.power)) ∧
      ((processLine (CJson.obj [("method", CJson.str "props"),
          ("params", CJson.obj fields)]) core).1.properties.bright
        = (match getStrField fields "bright" with
           | some s => u8Int (atoiStr s) | none => core.properties.bright)) ∧
      ((processLine (CJson.obj [("method", CJson.str "props"),
          ("params", CJson.obj fields)]) core).1.properties.ct
        = (match getStrField fields "ct" with
           | some s => u16Int (atoiStr s) | none => core.properties.ct)) ∧
      ((processLine (CJson.obj [("method", CJson.str "props"),
          ("params", CJson.obj fields)]) core).1.properties.rgb
        = (match getStrField fields "rgb" with
           | some s => u32Int (atoiStr s) | none => core.properties.rgb)) ∧
      ((processLine (CJson.obj [("method", CJson.str "props"),
          ("params", CJson.obj fields)]) core).1.properties.hue
        = (match getStrField fields "hue" with
           | some s => u16Int (atoiStr s) | none => core.properties.hue)) ∧
      ((processLine (CJson.obj [("method", CJson.str "props"),
          ("params", CJson.obj fields)]) core).1.properties.sat
        = (match getStrField fields "sat" with
           | some s => u8Int (atoiStr s) | none => core.properties.sat)) ∧
      ((processLine (CJson.obj [("method", CJson.str "props"),
          ("params", CJson.obj fields)]) core).1.properties.color_mode
        = (match getStrField fields "color_mode" with
           | some s => colorModeOfInt (atoiStr s) | none => core.properties.color_mode)) ∧
      ((processLine (CJson.obj [("method", CJson.str "props"),
          ("params", CJson.obj fields)]) core).1.properties.flowing
        = (match getStrField fields "flowing" with
           | some s => (atoiStr s = 1 : Bool) | none => core.properties.flowing)) ∧
      ((processLine (CJson.obj [("method", CJson.str "props"),
          ("params", CJson.obj fields)]) core).1.properties.delayoff
        = (match getStrField fields "delayoff" with
           | some s => u8Int (atoiStr s) | none => core.properties.delayoff)) ∧
      ((processLine (CJson.obj [("method", CJson.str "props"),
          ("params", CJson.obj fields)]) core).1.properties.music_on
        = (match getStrField fields "music_on" with
           | some s => (atoiStr s = 1 : Bool) | none => core.properties.music_on)) ∧
      ((processLine (CJson.obj [("method", CJson.str "props"),
          ("params", CJson.obj fields)]) core).1.properties.name
        = (match getStrField fields "name" with
           | some s => s | none => core.properties.name)) ∧
      ((processLine (CJson.obj [("method", CJson.str "props"),
          ("params", CJson.obj fields)]) core).1.properties.bg_power
        = (match getStrField fields "bg_power" with
           | some s => (s = "on" : Bool) | none => core.properties.bg_power)) ∧
      ((processLine (CJson.obj [("method", CJson.str "props"),
          ("params", CJson.obj fields)]) core).1.properties.bg_flowing
        = (match getStrField fields "bg_flowing" with
           | some s => (atoiStr s = 1 : Bool) | none => core.properties.bg_flowing)) ∧
      ((processLine (CJson.obj [("method", CJson.str "props"),
          ("params", CJson.obj fields)]) core).1.properties.bg_ct
        = (match getStrField fields "bg_ct" with
           | some s => u16Int (atoiStr s) | none => core.properties.bg_ct)) ∧
      ((processLine (CJson.obj [("method", CJson.str "props"),
          ("params", CJson.obj fields)]) core).1.properties.bg_color_mode
        = (match getStrField fields "bg_lmode" with
           | some s => colorModeOfInt (atoiStr s) | none => core.properties.bg_color_mode)) ∧
      ((processLine (CJson.obj [("method", CJson.str "props"),
          ("params", CJson.obj fields)]) core).1.properties.bg_bright
        = (match getStrField fields "bg_bright" with
           | some s => u8Int (atoiStr s) | none => core.properties.bg_bright)) ∧
      ((processLine (CJson.obj [("method", CJson.str "props"),
          ("params", CJson.obj fields)]) core).1.properties.bg_rgb
        = (match getStrField fields "bg_rgb" with
           | some s => u32Int (atoiStr s) | none => core.properties.bg_rgb)) ∧
      ((processLine (CJson.obj [("method", CJson.str "props"),
          ("params", CJson.obj fields)]) core).1.properties.bg_hue
        = (match getStrField fields "bg_hue" with
           | some s => u16Int (atoiStr s) | none => core.properties.bg_hue)) ∧
      ((processLine (CJson.obj [("method", CJson.str "props"),
          ("params", CJson.obj fields)]) core).1.properties.bg_sat
        = (match getStrField fields "bg_sat" with
           | some s => u8Int (atoiStr s) | none => core.properties.bg_sat)) ∧
      ((processLine (CJson.obj [("method", CJson.str "props"),
          ("params", CJson.obj fields)]) core).1.properties.nl_br
        = (match getStrField fields "nl_br" with
           | some s => u8Int (atoiStr s) | none => core.properties.nl_br)) ∧
      ((processLine (CJson.obj [("method", CJson.str "props"),
          ("params", CJson.obj fields)]) core).1.properties.active_mode
        = (match getStrField fields "active_mode" with
           | some s => (atoiStr s = 1 : Bool) | none => core.properties.active_mode)) := by
  intro fields core
  exact ⟨rfl, rfl, rfl, rfl, rfl, rfl, rfl, rfl, rfl, rfl, rfl,
    rfl, rfl, rfl, rfl, rfl, rfl, rfl, rfl, rfl, rfl, rfl⟩
/-- C5: a single complete line-terminated frame delivered to `onData` as two
chunks, split at any point, leaves the frame reader — its partial buffer, its
Pending-Response Table and its Property Store — in exactly the state a single
whole-frame `onData` call produces, for any pending buffer holding no line
terminator and any line parser. -/
theorem onData_chunk_split :
    ∀ (parse : List Char → Option CJson) (st : List Char × RxCore)
      (line : List Char) (i : Nat),
      '\n' ∉ st.1 → '\n' ∉ line → i ≤ line.length + 1 →
      onData parse (onData parse st ((line ++ ['\n']).take i)) ((line ++ ['\n']).drop i)
        = onData parse st (line ++ ['\n']) := by
  intro parse st line i hbuf hline hi
  obtain ⟨buf, core⟩ := st
  simp only at hbuf
  by_cases hle : i ≤ line.length
  · have htake : (line ++ ['\n']).take i = line.take i :=
      List.take_append_of_le_length hle
    have hdrop : (line ++ ['\n']).drop i = line.drop i ++ ['\n'] :=
      List.drop_append_of_le_length hle
    rw [htake, hdrop]
    show onData parse (onData parse (buf, core) (line.take i)) (line.drop i ++ ['\n'])
      = onData parse (buf, core) (line ++ ['\n'])
    have hnl1 : '\n' ∉ buf ++ line.take i := by
      intro hmem
      rcases List.mem_append.mp hmem with h | h
      · exact hbuf h
      · exact hline (List.mem_of_mem_take h)
    unfold onData
    rw [runLines_no_newline parse _ core hnl1]
    have hassoc : (buf ++ line.take i) ++ (line.drop i ++ ['\n'])
        = buf ++ (line ++ ['\n']) := by
      rw [List.append_assoc]
      congr 1
      rw [← List.append_assoc, List.take_append_drop]
    simp only
    rw [hassoc]
  · have hieq : i = line.length + 1 := by omega
    subst hieq
    have htake : (line ++ ['\n']).take (line.length + 1) = line ++ ['\n'] := by
      rw [show line.length + 1 = (line ++ ['\n']).length by simp, List.take_length]
    have hdrop : (line ++ ['\n']).drop (line.length + 1) = [] := by
      rw [show line.length + 1 = (line ++ ['\n']).length by simp, List.drop_length]
    rw [htake, hdrop]
    show onData parse (onData parse (buf, core) (line ++ ['\n'])) []
      = onData parse (buf, core) (line ++ ['\n'])
    have hnlA : '\n' ∉ buf ++ line := by
      intro hmem
      rcases List.mem_append.mp hmem with h | h
      · exact hbuf h
      · exact hline h
    unfold onData
    rw [show buf ++ (line ++ ['\n']) = (buf ++ line) ++ ['\n'] by
      simp [List.append_assoc]]
    rw [runLines_single parse (buf ++ line) core hnlA]
    simp only [List.nil_append]
    exact runLines_no_newline parse [] _ (by simp)
/-- C5 witness. -/
theorem onData_chunk_split_witness :
    '\n' ∉ ([] : List Char) ∧ '\n' ∉ ['a', 'b'] ∧ (1 : Nat) ≤ ['a', 'b'].length + 1 ∧
    onData (fun _ => none) (onData (fun _ => none) ([], rxInit)
        ((['a', 'b'] ++ ['\n']).take 1)) ((['a', 'b'] ++ ['\n']).drop 1)
      = onData (fun _ => none) ([], rxInit) (['a', 'b'] ++ ['\n']) :=
  ⟨by decide, by decide, by decide,
    onData_chunk_split (fun _ => none) ([], rxInit) ['a', 'b'] 1
      (by decide) (by decide) (by decide)⟩
end Yeelight
